import Mathlib

/-!
# Verification of the aws-efs-creator stack declaration logic

Shallow embedding of the repository's two source files:

* `src/bin/aws-efs-creator.ts` — the entry point: environment-variable
  validation, tag-aspect registration, stack-props construction.
* `src/lib/aws-efs-creator-stack.ts` — the `AwsEfsCreatorStack`
  constructor: VPC lookup, security group, EFS file system, resource
  policy, and the two `CfnOutput` exports.

Pieces of the repository referenced but not present in the source tree
(`checkEnvVariables`, `ApplyTags`, the mode parsers) are modelled from
the specification; each such definition carries a doc comment starting
`Modelled from the spec:`.
-/

/-- `cdk.RemovalPolicy` — only the two members the stack uses. -/
inductive RemovalPolicy where
  | RETAIN
  | DESTROY
deriving DecidableEq, Repr

/-- `efs.PerformanceMode` — the two members of the closed enumeration. -/
inductive PerformanceMode where
  | GENERAL_PURPOSE
  | MAX_IO
deriving DecidableEq, Repr

/-- `efs.ThroughputMode` — the two members exercised by the parser. -/
inductive ThroughputMode where
  | BURSTING
  | ELASTIC
deriving DecidableEq, Repr

/-- `efs.LifecyclePolicy` — the member the stack uses, with one other
member so that the lifecycle field is not trivially one-valued. -/
inductive LifecyclePolicy where
  | AFTER_90_DAYS
  | AFTER_30_DAYS
deriving DecidableEq, Repr

/-- `InvalidModeError` carrying the offending raw value and the set of
accepted values, as the spec's error taxonomy describes. -/
structure InvalidModeError where
  raw : String
  accepted : List String
deriving DecidableEq, Repr

/-- Accepted raw strings of the performance-mode parser. -/
def performanceModeAccepted : List String := ["generalPurpose", "maxIO"]

/-- Accepted raw strings of the throughput-mode parser. -/
def throughputModeAccepted : List String := ["bursting", "elastic"]

/-- Modelled from the spec: `parsePerformanceMode` from the missing
source file `src/utils/efs-mode-parsing`. Exact-string comparison against
the enumeration's literal member names; on no match, fails with an
`InvalidModeError` carrying the raw value and the accepted set; no
default value. -/
def parsePerformanceMode (raw : String) : Except InvalidModeError PerformanceMode :=
  if raw = "generalPurpose" then Except.ok PerformanceMode.GENERAL_PURPOSE
  else if raw = "maxIO" then Except.ok PerformanceMode.MAX_IO
  else Except.error ⟨raw, performanceModeAccepted⟩

/-- Modelled from the spec: `parseThroughputMode` from the missing
source file `src/utils/efs-mode-parsing`. Exact-string comparison against
the enumeration's literal member names; on no match, fails with an
`InvalidModeError` carrying the raw value and the accepted set; no
default value. -/
def parseThroughputMode (raw : String) : Except InvalidModeError ThroughputMode :=
  if raw = "bursting" then Except.ok ThroughputMode.BURSTING
  else if raw = "elastic" then Except.ok ThroughputMode.ELASTIC
  else Except.error ⟨raw, throughputModeAccepted⟩

/-- `AwsEfsCreatorStackProps` — the fields of the stack-props record
the stack constructor and entry point use. -/
structure AwsEfsCreatorStackProps where
  resourcePrefix : String
  deployEnvironment : String
  deployRegion : String
  appName : String
  vpcId : String
  performanceMode : String
  throughputMode : String
deriving DecidableEq, Repr

/-- Line 27 of `src/lib/aws-efs-creator-stack.ts`:
`props.deployEnvironment === 'production' ? RETAIN : DESTROY`. -/
def removalPolicyFor (deployEnvironment : String) : RemovalPolicy :=
  if deployEnvironment = "production" then RemovalPolicy.RETAIN else RemovalPolicy.DESTROY

/-- The `ec2.SecurityGroup` declared by the stack, with the construct
identifier it is declared under and the removal policy explicitly
applied to it by `applyRemovalPolicy`. -/
structure SecurityGroup where
  constructId : String
  securityGroupName : String
  vpcId : String
  allowAllOutbound : Bool
  appliedRemovalPolicy : Option RemovalPolicy
deriving DecidableEq, Repr

/-- One IAM condition entry: operator, condition key, required value.
The stack declares exactly `Bool / elasticfilesystem:AccessedViaMountTarget / "true"`. -/
structure PolicyCondition where
  op : String
  key : String
  value : String
deriving DecidableEq, Repr

/-- Principal of a policy statement; the stack uses `iam.AnyPrincipal`. -/
inductive Principal where
  | anyPrincipal
deriving DecidableEq, Repr

/-- The `iam.PolicyStatement` attached by `addToResourcePolicy`. -/
structure PolicyStatement where
  actions : List String
  principals : List Principal
  conditions : List PolicyCondition
deriving DecidableEq, Repr

/-- The statement of lines 54-64 of `src/lib/aws-efs-creator-stack.ts`. -/
def mountPolicyStatement : PolicyStatement :=
  { actions := ["elasticfilesystem:ClientMount"]
    principals := [Principal.anyPrincipal]
    conditions := [⟨"Bool", "elasticfilesystem:AccessedViaMountTarget", "true"⟩] }

/-- Modelled from the spec: the declared condition's meaning ("a request
lacking that condition must not be authorized by this statement,
verified by inspecting the declared condition"). A request context maps
condition keys to values; the statement authorizes an action when the
action is listed and every declared condition entry is satisfied by the
context (for the `Bool` operator: the context holds exactly the declared
value for the key). -/
def PolicyStatement.authorizes (s : PolicyStatement) (action : String)
    (ctx : String → Option String) : Bool :=
  s.actions.contains action &&
    s.conditions.all (fun c => decide (ctx c.key = some c.value))

/-- The `efs.FileSystem` declared by the stack, with its construct
identifier and the resource-policy statements attached to it. -/
structure FileSystem where
  constructId : String
  fileSystemName : String
  vpcId : String
  removalPolicy : RemovalPolicy
  securityGroupId : String
  encrypted : Bool
  performanceMode : PerformanceMode
  allowAnonymousAccess : Bool
  throughputMode : ThroughputMode
  lifecyclePolicy : LifecyclePolicy
  resourcePolicy : List PolicyStatement
deriving DecidableEq, Repr

/-- What a published output's `value` references. -/
inductive OutputValue where
  | securityGroupId (ofConstruct : String)
  | fileSystemId (ofConstruct : String)
deriving DecidableEq, Repr

/-- A `cdk.CfnOutput`, with the construct identifier it is declared
under, its referenced value, export name and description. -/
structure CfnOutput where
  constructId : String
  value : OutputValue
  exportName : String
  description : String
deriving DecidableEq, Repr

/-- The resource tree declared by one `AwsEfsCreatorStack` instance:
the VPC lookup, the security group, the file system, and the outputs,
in declaration order. -/
structure ResourceTree where
  vpcLookupId : String
  vpcId : String
  efsSG : SecurityGroup
  efsFileSystem : FileSystem
  outputs : List CfnOutput
deriving DecidableEq, Repr

/-- The `AwsEfsCreatorStack` constructor of
`src/lib/aws-efs-creator-stack.ts`, lines 21-79, as a function from the
props to the declared resource tree. A thrown `InvalidModeError` from
either parser aborts the whole declaration (`Except.error`). -/
def AwsEfsCreatorStack (props : AwsEfsCreatorStackProps) :
    Except InvalidModeError ResourceTree := do
  let vpcId := props.vpcId
  let removalPolicy := removalPolicyFor props.deployEnvironment
  let efsSG : SecurityGroup :=
    { constructId := props.resourcePrefix ++ "-efsSG"
      securityGroupName := props.resourcePrefix ++ "-efsSG"
      vpcId := vpcId
      allowAllOutbound := true
      appliedRemovalPolicy := some removalPolicy }
  let performanceMode ← parsePerformanceMode props.performanceMode
  let throughputMode ← parseThroughputMode props.throughputMode
  let efsFileSystem : FileSystem :=
    { constructId := props.resourcePrefix ++ "-efsFileSystem"
      fileSystemName := props.resourcePrefix ++ "-efsFileSystem"
      vpcId := vpcId
      removalPolicy := removalPolicy
      securityGroupId := efsSG.constructId
      encrypted := true
      performanceMode := performanceMode
      allowAnonymousAccess := false
      throughputMode := throughputMode
      lifecyclePolicy := LifecyclePolicy.AFTER_90_DAYS
      resourcePolicy := [mountPolicyStatement] }
  pure
    { vpcLookupId := props.resourcePrefix ++ "-VPC"
      vpcId := vpcId
      efsSG := efsSG
      efsFileSystem := efsFileSystem
      outputs :=
        [ { constructId := "efsSG"
            value := OutputValue.securityGroupId efsSG.constructId
            exportName := props.resourcePrefix ++ "-efsSG"
            description := "The security group id for the EFS file system." }
        , { constructId := "efsFileSystemId"
            value := OutputValue.fileSystemId efsFileSystem.constructId
            exportName := props.resourcePrefix ++ "-efsFileSystemId"
            description := "The file system id for the EFS file system." } ] }

/-- The process environment: a mapping from variable names to values,
`none` when the variable is unset. -/
def ProcessEnv := String → Option String

/-- Present and non-empty: the requirement the Environment Validator
imposes on each checked name. -/
def envPresent (env : ProcessEnv) (name : String) : Bool :=
  match env name with
  | none => false
  | some v => v ≠ ""

/-- Modelled from the spec: `checkEnvVariables` from the missing source
file `src/utils/check-environment-variable`. For each name the input
must be present and non-empty; fails fatally (here `Except.error` with
the offending name) immediately on the first missing name. An empty
list succeeds. -/
def checkEnvVariables (env : ProcessEnv) : List String → Except String Unit
  | [] => Except.ok ()
  | n :: ns =>
      if envPresent env n then checkEnvVariables env ns
      else Except.error n

/-- A JavaScript template literal renders an undefined interpolated
value as the string "undefined"; `process.env.X!` is only a compile-time
non-null assertion and yields `undefined` at runtime when `X` is unset. -/
def jsTemplate (v : Option String) : String := v.getD "undefined"

/-- The TagSet the entry point registers: environment, project, owner. -/
structure TagSet where
  environment : String
  project : String
  owner : String
deriving DecidableEq, Repr

/-- A node of the construct tree as the Tag Aspect sees it: whether it
supports tagging, and its current label map. -/
structure TagNode where
  taggable : Bool
  labels : String → Option String

/-- Setting one label: overwrites the key's value, keeps other keys. -/
def setLabel (labels : String → Option String) (k v : String) :
    String → Option String :=
  fun x => if x = k then some v else labels x

/-- Modelled from the spec: the `visit` of `ApplyTags` from the missing
source file `src/utils/apply-tag`. For a node that supports tagging,
applies all entries of the TagSet as key/value labels; a node that does
not support tagging is silently skipped (returned unchanged, not an
error). -/
def ApplyTags.visit (ts : TagSet) (n : TagNode) : TagNode :=
  if n.taggable then
    { n with labels :=
        setLabel (setLabel (setLabel n.labels "environment" ts.environment)
          "project" ts.project) "owner" ts.owner }
  else n

/-- What the entry point `src/bin/aws-efs-creator.ts` computes before
handing off to the stack: the registered TagSet, the stack props, the
stack name and description. -/
structure EntryResult where
  tagSet : TagSet
  stackProps : AwsEfsCreatorStackProps
  stackName : String
  stackDescription : String
deriving Repr

/-- The entry point `src/bin/aws-efs-creator.ts`, lines 16-48. Reads
`CDK_DEPLOY_REGION` and `ENVIRONMENT` with a bare non-null assertion
(no check), validates only `APP_NAME`, `OWNER`, `VPC_ID` via
`checkEnvVariables`, registers the tag aspect, and builds the stack
props with `resourcePrefix = appName ++ "-" ++ deployEnvironment`.
The raw mode strings are supplied through the props interface
(`AwsEfsCreatorStackProps`, not in the source tree), passed here as the
two extra arguments. -/
def entryPoint (env : ProcessEnv) (performanceModeRaw throughputModeRaw : String) :
    Except String EntryResult := do
  let cdkRegion := env "CDK_DEPLOY_REGION"
  let deployEnvironment := env "ENVIRONMENT"
  checkEnvVariables env ["APP_NAME", "OWNER", "VPC_ID"]
  let appName := jsTemplate (env "APP_NAME")
  let owner := jsTemplate (env "OWNER")
  let tagSet : TagSet :=
    { environment := jsTemplate deployEnvironment
      project := appName
      owner := owner }
  let stackProps : AwsEfsCreatorStackProps :=
    { resourcePrefix := appName ++ "-" ++ jsTemplate deployEnvironment
      deployEnvironment := jsTemplate deployEnvironment
      deployRegion := jsTemplate cdkRegion
      appName := appName
      vpcId := jsTemplate (env "VPC_ID")
      performanceMode := performanceModeRaw
      throughputMode := throughputModeRaw }
  pure
    { tagSet := tagSet
      stackProps := stackProps
      stackName := appName ++ "-" ++ jsTemplate deployEnvironment ++ "-"
        ++ jsTemplate cdkRegion ++ "-AwsEfsCreatorStack"
      stackDescription := "AwsEfsCreatorStack for " ++ appName ++ " in "
        ++ jsTemplate cdkRegion ++ " " ++ jsTemplate deployEnvironment ++ "." }

/-- The resource tree `AwsEfsCreatorStack` declares once both mode
parses succeed — a named form of the constructor's success case, used
to state the characterization lemma below. -/
def declaredTree (props : AwsEfsCreatorStackProps)
    (pm : PerformanceMode) (tm : ThroughputMode) : ResourceTree :=
  { vpcLookupId := props.resourcePrefix ++ "-VPC"
    vpcId := props.vpcId
    efsSG :=
      { constructId := props.resourcePrefix ++ "-efsSG"
        securityGroupName := props.resourcePrefix ++ "-efsSG"
        vpcId := props.vpcId
        allowAllOutbound := true
        appliedRemovalPolicy := some (removalPolicyFor props.deployEnvironment) }
    efsFileSystem :=
      { constructId := props.resourcePrefix ++ "-efsFileSystem"
        fileSystemName := props.resourcePrefix ++ "-efsFileSystem"
        vpcId := props.vpcId
        removalPolicy := removalPolicyFor props.deployEnvironment
        securityGroupId := props.resourcePrefix ++ "-efsSG"
        encrypted := true
        performanceMode := pm
        allowAnonymousAccess := false
        throughputMode := tm
        lifecyclePolicy := LifecyclePolicy.AFTER_90_DAYS
        resourcePolicy := [mountPolicyStatement] }
    outputs :=
      [ { constructId := "efsSG"
          value := OutputValue.securityGroupId (props.resourcePrefix ++ "-efsSG")
          exportName := props.resourcePrefix ++ "-efsSG"
          description := "The security group id for the EFS file system." }
      , { constructId := "efsFileSystemId"
          value := OutputValue.fileSystemId (props.resourcePrefix ++ "-efsFileSystem")
          exportName := props.resourcePrefix ++ "-efsFileSystemId"
          description := "The file system id for the EFS file system." } ] }

/-- Characterization of a successful stack declaration: it succeeds
exactly when both parses succeed, and then declares `declaredTree`. -/
lemma AwsEfsCreatorStack_ok_iff (props : AwsEfsCreatorStackProps)
    (tree : ResourceTree) :
    AwsEfsCreatorStack props = Except.ok tree ↔
      ∃ pm tm, parsePerformanceMode props.performanceMode = Except.ok pm ∧
        parseThroughputMode props.throughputMode = Except.ok tm ∧
        tree = declaredTree props pm tm := by
  unfold AwsEfsCreatorStack
  cases hp : parsePerformanceMode props.performanceMode with
  | error e =>
      simp [hp, Except.bind, Except.map, Functor.map, bind]
  | ok pm =>
      cases ht : parseThroughputMode props.throughputMode with
      | error e =>
          simp [hp, ht, Except.bind, Except.map, Functor.map, bind]
      | ok tm =>
          simp [hp, ht, Except.bind, Except.map, Functor.map, bind, pure,
            Except.pure, declaredTree, eq_comm]

/-- The spec's end-to-end example: `APP_NAME=acme`, `ENVIRONMENT=production`,
`VPC_ID=vpc-123`, performance-mode raw "generalPurpose", throughput-mode
raw "bursting". -/
def acmeProps : AwsEfsCreatorStackProps :=
  { resourcePrefix := "acme-production"
    deployEnvironment := "production"
    deployRegion := "us-east-1"
    appName := "acme"
    vpcId := "vpc-123"
    performanceMode := "generalPurpose"
    throughputMode := "bursting" }

/-- The resource tree declared for `acmeProps`. -/
def acmeTree : ResourceTree :=
  declaredTree acmeProps PerformanceMode.GENERAL_PURPOSE ThroughputMode.BURSTING

/-- C2: The removal policy is a pure function of the deployment
environment alone: "production" maps to retain, every other value to
destroy; and in every successfully assembled resource tree both the
security group's explicitly applied policy and the file system's policy
equal this single derived value — no other code path sets removal
behavior. -/
theorem removalPolicy_pure_function_of_environment :
    removalPolicyFor "production" = RemovalPolicy.RETAIN ∧
    (∀ e : String, e ≠ "production" → removalPolicyFor e = RemovalPolicy.DESTROY) ∧
    (∀ props tree, AwsEfsCreatorStack props = Except.ok tree →
      tree.efsSG.appliedRemovalPolicy = some (removalPolicyFor props.deployEnvironment) ∧
      tree.efsFileSystem.removalPolicy = removalPolicyFor props.deployEnvironment) := by
  refine ⟨rfl, ?_, ?_⟩
  · intro e he
    simp [removalPolicyFor, he]
  · intro props tree h
    obtain ⟨pm, tm, hp, ht, rfl⟩ := (AwsEfsCreatorStack_ok_iff props tree).mp h
    exact ⟨rfl, rfl⟩

/-- Witness for C2 at the concrete inputs "development" and `acmeProps`. -/
theorem removalPolicy_pure_function_of_environment_witness :
    removalPolicyFor "development" = RemovalPolicy.DESTROY ∧
    acmeTree.efsFileSystem.removalPolicy = removalPolicyFor acmeProps.deployEnvironment :=
  ⟨removalPolicy_pure_function_of_environment.2.1 "development" (by decide),
   (removalPolicy_pure_function_of_environment.2.2 acmeProps acmeTree (by rfl)).2⟩

/-- C3: On every successful stack assembly, the storage resource has
encryption at rest enabled, anonymous access explicitly disabled, the
declared security group as its network guard, the performance and
throughput modes obtained from the two parsers applied to the raw
configuration strings, the computed removal policy, and the fixed
infrequent-access lifecycle transition after 90 days of inactivity. -/
theorem storage_resource_configuration :
    ∀ props tree, AwsEfsCreatorStack props = Except.ok tree →
      tree.efsFileSystem.encrypted = true ∧
      tree.efsFileSystem.allowAnonymousAccess = false ∧
      tree.efsFileSystem.securityGroupId = tree.efsSG.constructId ∧
      parsePerformanceMode props.performanceMode =
        Except.ok tree.efsFileSystem.performanceMode ∧
      parseThroughputMode props.throughputMode =
        Except.ok tree.efsFileSystem.throughputMode ∧
      tree.efsFileSystem.removalPolicy = removalPolicyFor props.deployEnvironment ∧
      tree.efsFileSystem.lifecyclePolicy = LifecyclePolicy.AFTER_90_DAYS := by
  intro props tree h
  obtain ⟨pm, tm, hp, ht, rfl⟩ := (AwsEfsCreatorStack_ok_iff props tree).mp h
  exact ⟨rfl, rfl, rfl, hp, ht, rfl, rfl⟩

/-- Witness for C3 at the concrete `acmeProps`. -/
theorem storage_resource_configuration_witness :
    acmeTree.efsFileSystem.encrypted = true ∧
    acmeTree.efsFileSystem.allowAnonymousAccess = false ∧
    acmeTree.efsFileSystem.lifecyclePolicy = LifecyclePolicy.AFTER_90_DAYS :=
  ⟨(storage_resource_configuration acmeProps acmeTree (by rfl)).1,
   (storage_resource_configuration acmeProps acmeTree (by rfl)).2.1,
   (storage_resource_configuration acmeProps acmeTree (by rfl)).2.2.2.2.2.2⟩

/-- C9: On every successful stack assembly, the access boundary
(security group) is scoped to the resolved network, permits all
outbound traffic, is named deterministically from the resource prefix,
and has the computed removal policy applied to it explicitly. -/
theorem access_boundary_configuration :
    ∀ props tree, AwsEfsCreatorStack props = Except.ok tree →
      tree.efsSG.vpcId = props.vpcId ∧
      tree.efsSG.allowAllOutbound = true ∧
      tree.efsSG.securityGroupName = props.resourcePrefix ++ "-efsSG" ∧
      tree.efsSG.appliedRemovalPolicy = some (removalPolicyFor props.deployEnvironment) := by
  intro props tree h
  obtain ⟨pm, tm, hp, ht, rfl⟩ := (AwsEfsCreatorStack_ok_iff props tree).mp h
  exact ⟨rfl, rfl, rfl, rfl⟩

/-- Witness for C9 at the concrete `acmeProps`. -/
theorem access_boundary_configuration_witness :
    acmeTree.efsSG.allowAllOutbound = true ∧
    acmeTree.efsSG.securityGroupName = "acme-production-efsSG" :=
  ⟨(access_boundary_configuration acmeProps acmeTree (by rfl)).2.1,
   ((access_boundary_configuration acmeProps acmeTree (by rfl)).2.2.1).trans (by decide)⟩

/-- C4: Exactly one access policy statement is attached to the storage
resource; it allows the mount action for any principal only under the
boolean condition that the request context shows the connection arrived
via a mount target with the literal value "true", and a request lacking
that condition is not authorized by this statement. -/
theorem access_policy_mount_condition :
    (∀ props tree, AwsEfsCreatorStack props = Except.ok tree →
      tree.efsFileSystem.resourcePolicy = [mountPolicyStatement]) ∧
    mountPolicyStatement.actions = ["elasticfilesystem:ClientMount"] ∧
    mountPolicyStatement.principals = [Principal.anyPrincipal] ∧
    mountPolicyStatement.conditions =
      [⟨"Bool", "elasticfilesystem:AccessedViaMountTarget", "true"⟩] ∧
    (∀ ctx : String → Option String,
      ctx "elasticfilesystem:AccessedViaMountTarget" ≠ some "true" →
      mountPolicyStatement.authorizes "elasticfilesystem:ClientMount" ctx = false) ∧
    (∀ ctx : String → Option String,
      ctx "elasticfilesystem:AccessedViaMountTarget" = some "true" →
      mountPolicyStatement.authorizes "elasticfilesystem:ClientMount" ctx = true) := by
  refine ⟨?_, rfl, rfl, rfl, ?_, ?_⟩
  · intro props tree h
    obtain ⟨pm, tm, hp, ht, rfl⟩ := (AwsEfsCreatorStack_ok_iff props tree).mp h
    rfl
  · intro ctx hctx
    simp [PolicyStatement.authorizes, mountPolicyStatement, hctx]
  · intro ctx hctx
    simp [PolicyStatement.authorizes, mountPolicyStatement, hctx]

/-- Witness for C4: the policy of the concrete `acmeTree`, an empty
request context (not authorized), and a mount-target context
(authorized). -/
theorem access_policy_mount_condition_witness :
    acmeTree.efsFileSystem.resourcePolicy = [mountPolicyStatement] ∧
    mountPolicyStatement.authorizes "elasticfilesystem:ClientMount"
      (fun _ => none) = false ∧
    mountPolicyStatement.authorizes "elasticfilesystem:ClientMount"
      (fun k => if k = "elasticfilesystem:AccessedViaMountTarget"
        then some "true" else none) = true :=
  ⟨access_policy_mount_condition.1 acmeProps acmeTree (by rfl),
   access_policy_mount_condition.2.2.2.2.1 (fun _ => none) (by simp),
   access_policy_mount_condition.2.2.2.2.2
     (fun k => if k = "elasticfilesystem:AccessedViaMountTarget"
       then some "true" else none) (by simp)⟩

/-- C5: On every successful stack assembly, exactly two outputs are
published: the access boundary's identifier exported under
`<resourcePrefix>-efsSG` and the storage resource's identifier exported
under `<resourcePrefix>-efsFileSystemId`, each with a non-empty
human-readable description. -/
theorem published_outputs :
    ∀ props tree, AwsEfsCreatorStack props = Except.ok tree →
      tree.outputs.length = 2 ∧
      tree.outputs.map CfnOutput.exportName =
        [props.resourcePrefix ++ "-efsSG",
         props.resourcePrefix ++ "-efsFileSystemId"] ∧
      tree.outputs.map CfnOutput.value =
        [OutputValue.securityGroupId tree.efsSG.constructId,
         OutputValue.fileSystemId tree.efsFileSystem.constructId] ∧
      (∀ o ∈ tree.outputs, o.description ≠ "") := by
  intro props tree h
  obtain ⟨pm, tm, hp, ht, rfl⟩ := (AwsEfsCreatorStack_ok_iff props tree).mp h
  refine ⟨rfl, rfl, rfl, ?_⟩
  intro o ho
  simp [declaredTree] at ho
  rcases ho with rfl | rfl <;> simp

/-- Witness for C5 at the concrete `acmeProps`: the spec's example
export names `acme-production-efsSG` and `acme-production-efsFileSystemId`. -/
theorem published_outputs_witness :
    acmeTree.outputs.map CfnOutput.exportName =
      ["acme-production-efsSG", "acme-production-efsFileSystemId"] :=
  ((published_outputs acmeProps acmeTree (by rfl)).2.1).trans (by decide)

/-- C6: Each mode parser compares its raw string input exactly against
the accepted literal names, maps each accepted string to exactly one of
its two enumeration members, and for every string outside the accepted
set fails with an `InvalidModeError` carrying the offending raw value
and the accepted set, with no default or fallback value. -/
theorem mode_parsers_exact_and_total :
    parsePerformanceMode "generalPurpose" = Except.ok PerformanceMode.GENERAL_PURPOSE ∧
    parsePerformanceMode "maxIO" = Except.ok PerformanceMode.MAX_IO ∧
    parseThroughputMode "bursting" = Except.ok ThroughputMode.BURSTING ∧
    parseThroughputMode "elastic" = Except.ok ThroughputMode.ELASTIC ∧
    (∀ s : String, s ∉ performanceModeAccepted →
      parsePerformanceMode s = Except.error ⟨s, performanceModeAccepted⟩) ∧
    (∀ s : String, s ∉ throughputModeAccepted →
      parseThroughputMode s = Except.error ⟨s, throughputModeAccepted⟩) := by
  refine ⟨rfl, rfl, rfl, rfl, ?_, ?_⟩
  · intro s hs
    simp [performanceModeAccepted] at hs
    simp [parsePerformanceMode, hs.1, hs.2]
  · intro s hs
    simp [throughputModeAccepted] at hs
    simp [parseThroughputMode, hs.1, hs.2]

/-- Witness for C6 at the concrete inputs "turbo" (rejected, error
lists the two accepted values) and "MAXIO" (case differences are not
normalized, so it is rejected too). -/
theorem mode_parsers_exact_and_total_witness :
    parsePerformanceMode "turbo" =
      Except.error ⟨"turbo", ["generalPurpose", "maxIO"]⟩ ∧
    parsePerformanceMode "MAXIO" =
      Except.error ⟨"MAXIO", ["generalPurpose", "maxIO"]⟩ ∧
    parseThroughputMode "Bursting" =
      Except.error ⟨"Bursting", ["bursting", "elastic"]⟩ :=
  ⟨(mode_parsers_exact_and_total.2.2.2.2.1 "turbo" (by decide)).trans (by rfl),
   (mode_parsers_exact_and_total.2.2.2.2.1 "MAXIO" (by decide)).trans (by rfl),
   (mode_parsers_exact_and_total.2.2.2.2.2 "Bursting" (by decide)).trans (by rfl)⟩

/-- C7: Tag application is idempotent — applying the TagSet twice to a
node yields the same final label set as applying it once, because the
second application overwrites with identical values — and a node that
does not support tagging is returned unchanged (silently skipped). -/
theorem tag_application_idempotent :
    (∀ (ts : TagSet) (n : TagNode),
      ApplyTags.visit ts (ApplyTags.visit ts n) = ApplyTags.visit ts n) ∧
    (∀ (ts : TagSet) (labels : String → Option String),
      ApplyTags.visit ts { taggable := false, labels := labels } =
        { taggable := false, labels := labels }) := by
  constructor
  · intro ts n
    obtain ⟨tg, lb⟩ := n
    cases tg with
    | false => simp [ApplyTags.visit]
    | true =>
        simp only [ApplyTags.visit, if_true]
        refine congrArg (TagNode.mk true) ?_
        funext x
        simp only [setLabel]
        split_ifs <;> rfl
  · intro ts labels
    simp [ApplyTags.visit]

/-- C8 counterexample: on the concrete `acmeProps` (resource prefix
"acme-production") the stack assembles successfully, yet the two
published outputs are declared under the construct identifiers "efsSG"
and "efsFileSystemId", neither of which begins with the resource
prefix — refuting the claim that every resource in the tree is declared
under an identifier that begins with the prefix. -/
theorem output_identifiers_not_prefixed :
    AwsEfsCreatorStack acmeProps = Except.ok acmeTree ∧
    acmeTree.outputs.map (fun o => o.constructId) = ["efsSG", "efsFileSystemId"] ∧
    acmeTree.outputs.map
      (fun o => acmeProps.resourcePrefix.data.isPrefixOf o.constructId.data) =
      [false, false] := by
  refine ⟨by rfl, by rfl, by decide⟩

/-- C8 amended: the resource prefix namespaces the construct
identifiers of the network lookup, the access boundary and the storage
resource, and the export names of both published outputs; the two
outputs themselves, however, are declared under the fixed unprefixed
construct identifiers "efsSG" and "efsFileSystemId". -/
theorem prefix_namespacing_amended :
    ∀ props tree, AwsEfsCreatorStack props = Except.ok tree →
      tree.vpcLookupId = props.resourcePrefix ++ "-VPC" ∧
      tree.efsSG.constructId = props.resourcePrefix ++ "-efsSG" ∧
      tree.efsFileSystem.constructId = props.resourcePrefix ++ "-efsFileSystem" ∧
      tree.outputs.map (fun o => o.constructId) = ["efsSG", "efsFileSystemId"] ∧
      tree.outputs.map (fun o => o.exportName) =
        [props.resourcePrefix ++ "-efsSG",
         props.resourcePrefix ++ "-efsFileSystemId"] := by
  intro props tree h
  obtain ⟨pm, tm, hp, ht, rfl⟩ := (AwsEfsCreatorStack_ok_iff props tree).mp h
  exact ⟨rfl, rfl, rfl, rfl, rfl⟩

/-- Witness for the amended C8 at the concrete `acmeProps`. -/
theorem prefix_namespacing_amended_witness :
    acmeTree.efsSG.constructId = "acme-production" ++ "-efsSG" ∧
    acmeTree.outputs.map (fun o => o.constructId) = ["efsSG", "efsFileSystemId"] :=
  ⟨(prefix_namespacing_amended acmeProps acmeTree (by rfl)).2.1,
   (prefix_namespacing_amended acmeProps acmeTree (by rfl)).2.2.2.1⟩

/-- A process environment with `APP_NAME`, `OWNER` and `VPC_ID` set but
`ENVIRONMENT` and `CDK_DEPLOY_REGION` unset. -/
def envMissingEnvironment : ProcessEnv := fun n =>
  if n = "APP_NAME" then some "acme"
  else if n = "OWNER" then some "owner"
  else if n = "VPC_ID" then some "vpc-123"
  else none

/-- A process environment with `OWNER` unset and the rest set. -/
def envMissingOwner : ProcessEnv := fun n =>
  if n = "APP_NAME" then some "acme"
  else if n = "VPC_ID" then some "vpc-123"
  else if n = "ENVIRONMENT" then some "production"
  else if n = "CDK_DEPLOY_REGION" then some "us-east-1"
  else none

/-- A fully populated process environment for the spec's example. -/
def acmeEnv : ProcessEnv := fun n =>
  if n = "APP_NAME" then some "acme"
  else if n = "OWNER" then some "owner"
  else if n = "VPC_ID" then some "vpc-123"
  else if n = "ENVIRONMENT" then some "production"
  else if n = "CDK_DEPLOY_REGION" then some "us-east-1"
  else none

/-- C1 counterexample: with `APP_NAME`, `OWNER` and `VPC_ID` set but
`ENVIRONMENT` (and `CDK_DEPLOY_REGION`) unset, the entry point does not
halt — it proceeds past validation — refuting the claim that every one
of the five inputs is checked and a missing `ENVIRONMENT` halts the
program. -/
theorem missing_environment_not_checked :
    envMissingEnvironment "ENVIRONMENT" = none ∧
    envMissingEnvironment "CDK_DEPLOY_REGION" = none ∧
    (entryPoint envMissingEnvironment "generalPurpose" "bursting").isOk = true := by
  refine ⟨by rfl, by rfl, by rfl⟩

/-- C1 amended: the entry point validates exactly `APP_NAME`, `OWNER`
and `VPC_ID` (present and non-empty) before any resource declaration,
halting with the first failing name of that list; `ENVIRONMENT` and
`CDK_DEPLOY_REGION` are read without validation. -/
theorem env_validation_amended :
    ∀ (env : ProcessEnv) (p t : String),
      ((entryPoint env p t).isOk = true ↔
        (envPresent env "APP_NAME" && envPresent env "OWNER" &&
          envPresent env "VPC_ID") = true) ∧
      (∀ n, entryPoint env p t = Except.error n →
        List.find? (fun m => !envPresent env m) ["APP_NAME", "OWNER", "VPC_ID"] =
          some n) := by
  intro env p t
  by_cases h1 : envPresent env "APP_NAME" <;>
    by_cases h2 : envPresent env "OWNER" <;>
      by_cases h3 : envPresent env "VPC_ID" <;>
        simp [entryPoint, checkEnvVariables, h1, h2, h3, Except.bind,
          Except.map, Functor.map, bind, pure, Except.pure, Except.isOk,
          Except.toBool]

/-- Witness for the amended C1: with everything set the entry point
proceeds; with `OWNER` unset it halts naming `OWNER`, the first failing
name. -/
theorem env_validation_amended_witness :
    (entryPoint acmeEnv "generalPurpose" "bursting").isOk = true ∧
    List.find? (fun m => !envPresent envMissingOwner m)
      ["APP_NAME", "OWNER", "VPC_ID"] = some "OWNER" :=
  ⟨(env_validation_amended acmeEnv "generalPurpose" "bursting").1.mpr (by decide),
   (env_validation_amended envMissingOwner "generalPurpose" "bursting").2
     "OWNER" (by rfl)⟩

/-- The entry-point result for `acmeEnv` with the example mode strings. -/
def acmeEntry : EntryResult :=
  { tagSet := { environment := "production", project := "acme", owner := "owner" }
    stackProps := acmeProps
    stackName := "acme-production-us-east-1-AwsEfsCreatorStack"
    stackDescription := "AwsEfsCreatorStack for acme in us-east-1 production." }

/-- C10: Whenever the entry point succeeds, the resource prefix handed
to the stack is the concatenation of the `APP_NAME` value, a hyphen,
and the `ENVIRONMENT` value, so every export name and deterministic
resource name derived from the prefix is a pure function of those two
environment inputs. -/
theorem resource_prefix_from_app_name_and_environment :
    ∀ (env : ProcessEnv) (p t : String) (r : EntryResult),
      entryPoint env p t = Except.ok r →
      r.stackProps.resourcePrefix =
        jsTemplate (env "APP_NAME") ++ "-" ++ jsTemplate (env "ENVIRONMENT") ∧
      (∀ a e, env "APP_NAME" = some a → env "ENVIRONMENT" = some e →
        r.stackProps.resourcePrefix = a ++ "-" ++ e) := by
  intro env p t r h
  unfold entryPoint at h
  cases hc : checkEnvVariables env ["APP_NAME", "OWNER", "VPC_ID"] with
  | error e =>
      rw [hc] at h
      simp [Except.bind, bind] at h
  | ok u =>
      cases u
      rw [hc] at h
      simp only [Except.bind, bind, pure, Except.pure, Except.ok.injEq] at h
      subst h
      refine ⟨rfl, ?_⟩
      intro a e ha he
      simp [ha, he, jsTemplate]

/-- Witness for C10 at the concrete `acmeEnv`. -/
theorem resource_prefix_from_app_name_and_environment_witness :
    acmeEntry.stackProps.resourcePrefix = "acme" ++ "-" ++ "production" :=
  (resource_prefix_from_app_name_and_environment acmeEnv "generalPurpose"
    "bursting" acmeEntry (by rfl)).2 "acme" "production" (by rfl) (by rfl)
